import Mathlib

/-!
Verification of the asynchronous task lifecycle of the zhaoyaojing server.

Shallow embedding of the task store, the five-stage analysis pipeline
(`processAnalysisTask` in `server.js`), the Vercel variant
(`processAnalysisVercel` in `api/server.js`), the submission and status
endpoints, the retention sweep (`cleanupOldTasks`) and the browser-side
poller (`pollTaskStatus` in `standalone_image_test_server.js`).

Timestamps are milliseconds as `Nat`.  External collaborators (GPT-4o image
classification and analysis, query enhancement, the RAG subprocess, final
synthesis) are oracles supplied through an `Env` record; the pipeline is
embedded as the exact sequence of task-store mutations it performs.
-/

namespace Zhaoyaojing

/-- The `TaskStatus` enumeration of `server.js` (lines 63-68). -/
inductive TaskStatus where
  | pending
  | processing
  | completed
  | failed
deriving DecidableEq, Repr

/-- A status is terminal when it is `completed` or `failed`. -/
def TaskStatus.isTerminal : TaskStatus → Bool
  | .completed => true
  | .failed => true
  | _ => false

/-- The four text fields the submission endpoint snapshots from the request
body (`server.js` lines 1700-1705); a missing field becomes `""`. -/
structure UserInfo where
  nickname : String
  profession : String
  age : String
  bioOrChatHistory : String
deriving DecidableEq, Repr

/-- An uploaded file as seen by the pipeline: its multer filename, whether
`fs.existsSync(file.path)` holds, and its byte size. -/
structure UploadedFile where
  filename : String
  pathExists : Bool
  size : Nat
deriving DecidableEq, Repr

/-- The filter at `server.js` lines 1402-1404:
`file && file.path && fs.existsSync(file.path) && file.size > 0`. -/
def isValidImage (f : UploadedFile) : Bool :=
  f.pathExists && decide (0 < f.size)

/-- An opaque collaborator payload.  `fallback` is the fixed object built by
`generateFallbackReport` (`server.js` lines 1363-1376: risk level 中等风险,
confidence 低, fixed advisory strings); `external c` is a payload produced by
a collaborator. -/
inductive Payload where
  | fallback
  | external (content : String)
deriving DecidableEq, Repr

/-- `generateFallbackReport()` (`server.js` line 1363): always returns the
fixed fallback object. -/
def generateFallbackReport : Payload := Payload.fallback

/-- One per-image analysis record as pushed onto `imageAnalyses`
(`server.js` lines 1414-1449), projected to the claim-relevant fields. -/
structure ImageAnalysis where
  filename : String
  classification : String
  analysis_type : String
  success : Bool
  error : Option String
deriving DecidableEq, Repr

/-- The error marker pushed when one image's classification or analysis
fails (`server.js` lines 1439-1448): non-fatal, the loop continues. -/
def errorAnalysis (filename msg : String) : ImageAnalysis :=
  { filename := filename
    classification := "error"
    analysis_type := "error"
    success := false
    error := some msg }

/-- Outcome of `classifyImageWithGPT4o` for one image: the promise may
reject (`thrown`), resolve with `success: false` (`notSuccess`, which makes
line 1419 throw `图片分类失败: ...`), or resolve with a category string. -/
inductive ClassifyOutcome where
  | thrown (msg : String)
  | notSuccess (err : String)
  | ok (classification : String)
deriving DecidableEq, Repr

/-- Result of `enhanceQueryWithAI`: a success flag and the enhanced query
(on `success: false` the function still supplies a backup query, used at
`server.js` line 1479). -/
structure EnhanceResult where
  success : Bool
  enhanced_query : String
deriving DecidableEq, Repr

/-- How the RAG subprocess run inside `callRAGSystem` (`server.js` lines
836-998) ends.  Every branch `resolve`s — the promise never rejects. -/
inductive RagProcOutcome where
  | resolvedData (payload : String)
  | resolvedErrorWithFallback (fb : String)
  | resolvedErrorNoFallback
  | parseFailure
  | nonzeroExit
  | spawnError
  | timeout
deriving DecidableEq, Repr

/-- `callRAGSystem` (`server.js` lines 836-998): exit code 0 with parseable
`success: true` JSON yields the data; `success: false` yields the script's
own `fallback_report` when present, otherwise `generateFallbackReport()`;
parse failure, nonzero exit, spawn error and the 300 s timeout all resolve
with `generateFallbackReport()`. -/
def callRAGSystem : RagProcOutcome → Payload
  | .resolvedData p => Payload.external p
  | .resolvedErrorWithFallback fb => Payload.external fb
  | .resolvedErrorNoFallback => generateFallbackReport
  | .parseFailure => generateFallbackReport
  | .nonzeroExit => generateFallbackReport
  | .spawnError => generateFallbackReport
  | .timeout => generateFallbackReport

/-- Oracles for every external collaborator call the pipeline makes,
indexed by image position where per-image. -/
structure Env where
  classify : Nat → ClassifyOutcome
  analyzeChat : Nat → Except String ImageAnalysis
  analyzePhoto : Nat → Except String ImageAnalysis
  analyzeGeneric : Nat → Except String ImageAnalysis
  enhance : Except String EnhanceResult
  ragSystemReady : Bool
  ragOutcome : RagProcOutcome
  finalReport : Except String Payload

/-- The projection of the final response object built at `server.js` lines
1522-1596 that the claims mention. -/
structure AnalysisResponse where
  success : Bool
  image_analyses : List ImageAnalysis
  rag_knowledge : Payload
  final_report : Payload
deriving DecidableEq, Repr

/-- A terminal result written by `setTaskResult`: the main pipeline's
response object, or the Vercel variant's result
(`api/server.js` lines 361-380). -/
inductive ResultPayload where
  | main (r : AnalysisResponse)
  | vercel (ragStatusError : Bool) (finalReport : Payload)
deriving DecidableEq, Repr

/-- `input_data` snapshot stored by `createTask`: the main server stores
`{userInfo, filesCount, submittedAt}` (`server.js` lines 1737-1741), the
Vercel variant stores the user info alone (`api/server.js` line 324). -/
inductive InputData where
  | main (ui : UserInfo) (filesCount : Nat) (submittedAt : Nat)
  | vercel (ui : UserInfo)
deriving DecidableEq, Repr

/-- A task record (`server.js` lines 73-84 / `api/server.js` lines 55-66). -/
structure Task where
  id : String
  status : TaskStatus
  progress : Nat
  current_step : String
  created_at : Nat
  updated_at : Nat
  input_data : InputData
  result : Option ResultPayload
  error : Option String
  processing_time : Nat
deriving DecidableEq, Repr

/-- `createTask` (`server.js` lines 71-89): fresh record,
`status = pending`, `progress = 0`, `result = error = null`. -/
def createTask (id : String) (now : Nat) (initialData : InputData) : Task :=
  { id := id
    status := TaskStatus.pending
    progress := 0
    current_step := ""
    created_at := now
    updated_at := now
    input_data := initialData
    result := none
    error := none
    processing_time := 0 }

/-- One task-store mutation performed by a pipeline: `updateTaskStatus`
(with its status, step and progress arguments; every call site passes no
extra `data`), `setTaskResult`, or `setTaskError`. -/
inductive StoreOp where
  | update (status : TaskStatus) (step : String) (progress : Nat)
  | setResult (r : ResultPayload)
  | setError (e : String)
deriving DecidableEq, Repr

/-- Effect of one mutation on a present task record, at wall time `now`:
`updateTaskStatus` (`server.js` lines 91-108) overwrites status, step,
progress and `updated_at`; `setTaskResult` (lines 114-124) stores the
result, sets `completed`, forces `progress = 100` and computes
`processing_time`; `setTaskError` (lines 126-135) stores the message, sets
`failed` and computes `processing_time`, leaving `progress` alone. -/
def applyOp (now : Nat) (t : Task) : StoreOp → Task
  | .update st step p =>
      { t with status := st, current_step := step, progress := p, updated_at := now }
  | .setResult r =>
      { t with result := some r, status := TaskStatus.completed, progress := 100,
               processing_time := now - t.created_at, updated_at := now }
  | .setError e =>
      { t with error := some e, status := TaskStatus.failed,
               processing_time := now - t.created_at, updated_at := now }

/-- Run a list of mutations; `tm k` is the wall time of the `k`-th one. -/
def runTrace (tm : Nat → Nat) : Nat → Task → List StoreOp → Task
  | _, t, [] => t
  | k, t, op :: ops => runTrace tm (k + 1) (applyOp (tm k) t op) ops

/-- All intermediate task records (the record before any mutation first),
as the Status Endpoint could observe them between mutations. -/
def statesList (tm : Nat → Nat) : Nat → Task → List StoreOp → List Task
  | _, t, [] => [t]
  | k, t, op :: ops => t :: statesList tm (k + 1) (applyOp (tm k) t op) ops

/-! ## The stage pipeline `processAnalysisTask` (`server.js` lines 1379-1619) -/

/-- The validation message thrown at `server.js` line 1393 (and returned by
the submission endpoint at line 1718). -/
def validationErrorMsg : String := "昵称不能为空，这是进行情感安全分析的基础信息"

/-- JS `String.prototype.trim()`: strip leading and trailing whitespace.
`!s.trim()` in the source is true exactly when the trimmed string is empty. -/
def jsTrim (s : String) : String :=
  ⟨((s.data.dropWhile Char.isWhitespace).reverse.dropWhile Char.isWhitespace).reverse⟩

/-- `Math.round((i / n) * 20)` from `server.js` line 1411, computed exactly:
for a nonnegative argument `Math.round x = ⌊x + 1/2⌋`, and
`⌊20·i/n + 1/2⌋ = (40·i + n) / (2·n)` in integer arithmetic. -/
def jsRound20 (i n : Nat) : Nat := (40 * i + n) / (2 * n)

/-- The progress written for the `i`-th of `n` images
(`server.js` line 1411): `30 + Math.round((i / n) * 20)`. -/
def imgProgress (n i : Nat) : Nat := 30 + jsRound20 i n

/-- The `updateTaskStatus` call at the top of the per-image loop
(`server.js` line 1412). -/
def imgOp (n i : Nat) : StoreOp :=
  StoreOp.update TaskStatus.processing s!"处理第 {i + 1}/{n} 张图片" (imgProgress n i)

/-- One iteration of the image loop (`server.js` lines 1414-1449):
classify, dispatch on the category (`chat`, `photo`, otherwise the generic
analyzer with `analysis_type = unknown`), stamp the classification on the
result; any throw becomes the non-fatal error marker. -/
def analyzeOneImage (env : Env) (i : Nat) (filename : String) : ImageAnalysis :=
  match env.classify i with
  | .thrown m => errorAnalysis filename m
  | .notSuccess e => errorAnalysis filename s!"图片分类失败: {e}"
  | .ok c =>
      let branch :=
        if c = "chat" then env.analyzeChat i
        else if c = "photo" then env.analyzePhoto i
        else (env.analyzeGeneric i).map fun a => { a with analysis_type := "unknown" }
      match branch with
      | .error m => errorAnalysis filename m
      | .ok a => { a with classification := c }

/-- The image loop over `validImageFiles` starting at index `i`
(`server.js` lines 1409-1457): the store operations it performs, paired
with the `imageAnalyses` entries it accumulates. -/
def imageStage (env : Env) (n : Nat) : Nat → List UploadedFile → List StoreOp × List ImageAnalysis
  | _, [] => ([], [])
  | i, f :: fs =>
      let rest := imageStage env n (i + 1) fs
      (imgOp n i :: rest.1, analyzeOneImage env i f.filename :: rest.2)

/-- The value of `enhancedQuery` after stage 3 (`server.js` lines
1466-1484): the collaborator's enhanced (or backup) query when the call
returns, else `bioOrChatHistory` falling back to a template. -/
def enhancedQueryOf (env : Env) (ui : UserInfo) : String :=
  match env.enhance with
  | .ok er => er.enhanced_query
  | .error _ =>
      if ui.bioOrChatHistory = "" then s!"{ui.nickname} {ui.profession} 情感安全分析"
      else ui.bioOrChatHistory

/-- The store operations of stage 2 (`server.js` lines 1398-1460): with at
least one valid image, the batch announcement at progress 30 and one update
per image; otherwise the single "no images" update at progress 50. -/
def imageStageOps (env : Env) (uploadedFiles : List UploadedFile) : List StoreOp :=
  let validImageFiles := uploadedFiles.filter isValidImage
  let n := validImageFiles.length
  if 0 < n then
    StoreOp.update TaskStatus.processing s!"分析 {n} 张图片" 30 ::
      (imageStage env n 0 validImageFiles).1
  else
    [StoreOp.update TaskStatus.processing "无图片需要分析" 50]

/-- The response object assembled in stage 6 (`server.js` lines 1522-1596),
projected to its claim-relevant fields: the accumulated `imageAnalyses`,
`ragKnowledge` (stage 4: `callRAGSystem` when the index is ready, else the
fallback; the surrounding catch at lines 1495-1498 is unreachable since
`callRAGSystem` always resolves) and `finalReport` (stage 5: the
collaborator's report, or the fallback when it throws, lines 1509-1514). -/
def mainResponse (env : Env) (userInfo : UserInfo)
    (uploadedFiles : List UploadedFile) : AnalysisResponse :=
  let validImageFiles := uploadedFiles.filter isValidImage
  let n := validImageFiles.length
  { success := true
    image_analyses := (imageStage env n 0 validImageFiles).2
    rag_knowledge :=
      if env.ragSystemReady then callRAGSystem env.ragOutcome else generateFallbackReport
    final_report :=
      match env.finalReport with
      | .ok r => r
      | .error _ => generateFallbackReport }

/-- `processAnalysisTask` (`server.js` lines 1379-1619) as the exact
sequence of task-store mutations it performs.  An empty (after `trim`)
nickname throws at line 1393; the top-level catch (lines 1601-1618)
converts it to `setTaskError` — the only throw in the stage sequence.
Stages 2-5 degrade to markers and fallbacks, and stage 6 always ends with
`setTaskResult`. -/
def processAnalysisTask (env : Env) (userInfo : UserInfo)
    (uploadedFiles : List UploadedFile) : List StoreOp :=
  StoreOp.update TaskStatus.processing "开始数据验证" 10 ::
    (if jsTrim userInfo.nickname = "" then
      [StoreOp.setError validationErrorMsg]
    else
      StoreOp.update TaskStatus.processing "输入数据验证完成" 20 ::
        imageStageOps env uploadedFiles ++
        [StoreOp.update TaskStatus.processing "AI查询优化中" 55,
         StoreOp.update TaskStatus.processing "AI查询优化完成" 58,
         StoreOp.update TaskStatus.processing "RAG知识库检索中" 60,
         StoreOp.update TaskStatus.processing "RAG知识检索完成" 70,
         StoreOp.update TaskStatus.processing "最终分析生成中" 80,
         StoreOp.update TaskStatus.processing "构建最终响应" 90,
         StoreOp.setResult (ResultPayload.main (mainResponse env userInfo uploadedFiles))])

/-- The task records a task passes through when the main pipeline processes
it, starting from `createTask`. -/
def mainStates (env : Env) (ui : UserInfo) (files : List UploadedFile)
    (tm : Nat → Nat) (id : String) (now : Nat) : List Task :=
  statesList tm 0 (createTask id now (InputData.main ui files.length now))
    (processAnalysisTask env ui files)

/-- The terminal task record the main pipeline leaves behind. -/
def mainFinal (env : Env) (ui : UserInfo) (files : List UploadedFile)
    (tm : Nat → Nat) (id : String) (now : Nat) : Task :=
  runTrace tm 0 (createTask id now (InputData.main ui files.length now))
    (processAnalysisTask env ui files)

/-! ## The Vercel variant `processAnalysisVercel` (`api/server.js` 349-389) -/

/-- The resolved value of `callRAGSystemVercel` (`api/server.js` lines
98-208): every path resolves; `hasError` records whether its `error` field
is set. -/
structure VercelRagResult where
  hasError : Bool
  answer : String
deriving DecidableEq, Repr

/-- How one run of `processAnalysisVercel` goes: both collaborator wrappers
catch their own failures, so `ok` carries their resolved values; `crash e`
models an exception escaping the two awaits, handled by the catch at
`api/server.js` lines 385-388. -/
inductive VercelRun where
  | ok (rag : VercelRagResult) (report : Payload)
  | crash (e : String)
deriving DecidableEq, Repr

/-- `processAnalysisVercel` (`api/server.js` lines 349-389) as its sequence
of task-store mutations.  It performs no `updateTaskStatus` call at all:
the only mutation is the terminal `setTaskResult` or `setTaskError`. -/
def processAnalysisVercel : VercelRun → List StoreOp
  | .ok rag report => [StoreOp.setResult (ResultPayload.vercel rag.hasError report)]
  | .crash e => [StoreOp.setError e]

/-- Task records of a task processed by the Vercel variant. -/
def vercelStates (run : VercelRun) (ui : UserInfo) (tm : Nat → Nat)
    (id : String) (now : Nat) : List Task :=
  statesList tm 0 (createTask id now (InputData.vercel ui)) (processAnalysisVercel run)

/-! ## Task store as seen by the endpoints -/

/-- The in-memory `taskStorage` map, as an association list keyed by task
id (uuid keys are unique; lookup is first-match, like `Map.get`). -/
abbrev Store := List (String × Task)

/-- `getTask` (`server.js` lines 110-112). -/
def getTask (store : Store) (taskId : String) : Option Task :=
  store.lookup taskId

/-- `setTaskError` (`server.js` lines 126-135 / `api/server.js` lines
87-95) restricted to a present record: stores the message, sets `failed`,
computes `processing_time`, refreshes `updated_at`. -/
def setTaskErrorTask (now : Nat) (e : String) (t : Task) : Task :=
  { t with error := some e, status := TaskStatus.failed,
           processing_time := now - t.created_at, updated_at := now }

/-- `cleanupOldTasks` (`server.js` lines 138-153): walk the entries and
delete every record with `created_at < now - 3600000` (`oneHourAgo`),
irrespective of status.  `created_at ≥ 0`, so truncated `Nat` subtraction
agrees with the JS integer arithmetic. -/
def cleanupOldTasks (now : Nat) : Store → Store
  | [] => []
  | (taskId, task) :: rest =>
      if task.created_at < now - 3600000 then cleanupOldTasks now rest
      else (taskId, task) :: cleanupOldTasks now rest

/-! ## Submission endpoints -/

/-- The request-body text fields; a field the client did not send is
`none`, which `req.body.field || ''` turns into `""`. -/
structure ReqBody where
  nickname : Option String
  profession : Option String
  age : Option String
  bioOrChatHistory : Option String
deriving DecidableEq, Repr

/-- The `userInfo` snapshot both submission endpoints build
(`server.js` lines 1700-1705, `api/server.js` lines 316-321). -/
def mkUserInfo (body : ReqBody) : UserInfo :=
  { nickname := body.nickname.getD ""
    profession := body.profession.getD ""
    age := body.age.getD ""
    bioOrChatHistory := body.bioOrChatHistory.getD "" }

/-- Projection of a submission response: HTTP status, `success`, `error`,
`task_id` and the estimated seconds. -/
structure SubmitResponse where
  httpStatus : Nat
  success : Bool
  error : Option String
  task_id : Option String
  estimated_time : Option Nat
deriving DecidableEq, Repr

/-- `POST /api/generate_warning_report` on the main server (`server.js`
lines 1632-1782): empty trimmed nickname is rejected with a 400 before any
task exists (line 1716); otherwise a task is created, the estimate is
`max(30, files*20 + 60)` seconds (line 1744) and the pipeline is deferred
with `setImmediate`. -/
def mainSubmit (store : Store) (freshId : String) (now : Nat) (body : ReqBody)
    (filesCount : Nat) : SubmitResponse × Store :=
  let userInfo := mkUserInfo body
  if jsTrim userInfo.nickname = "" then
    ({ httpStatus := 400, success := false, error := some validationErrorMsg,
       task_id := none, estimated_time := none }, store)
  else
    ({ httpStatus := 200, success := true, error := none, task_id := some freshId,
       estimated_time := some (max 30 (filesCount * 20 + 60)) },
     (freshId, createTask freshId now (InputData.main userInfo filesCount now)) :: store)

/-- `POST /api/generate_warning_report` on the Vercel variant
(`api/server.js` lines 312-346): no validation at all — a task is created
and a success response returned whatever the nickname. -/
def vercelSubmit (store : Store) (freshId : String) (now : Nat)
    (body : ReqBody) : SubmitResponse × Store :=
  let userInfo := mkUserInfo body
  ({ httpStatus := 200, success := true, error := none, task_id := some freshId,
     estimated_time := some 30 },
   (freshId, createTask freshId now (InputData.vercel userInfo)) :: store)

/-! ## Status endpoints -/

/-- Projection of a status response; absent JSON fields are `none`. -/
structure StatusResponse where
  httpStatus : Nat
  success : Bool
  status : Option TaskStatus
  progress : Option Nat
  current_step : Option String
  completed : Option Bool
  failed : Option Bool
  result : Option ResultPayload
  error : Option String
  processing_time : Option Nat
  fallback_report : Option Payload
  message : Option String
deriving DecidableEq, Repr

/-- The 404 body both status endpoints send for an unknown or swept id. -/
def notFoundResponse : StatusResponse :=
  { httpStatus := 404, success := false, status := none, progress := none,
    current_step := none, completed := none, failed := none, result := none,
    error := some "任务不存在或已过期", processing_time := none,
    fallback_report := none, message := none }

/-- The base payload both status endpoints build for a found task. -/
def baseStatusResponse (task : Task) : StatusResponse :=
  { httpStatus := 200, success := true, status := some task.status,
    progress := some task.progress, current_step := some task.current_step,
    completed := none, failed := none, result := none, error := none,
    processing_time := none, fallback_report := none, message := none }

/-- `GET /api/report_status/:taskId` on the main server (`server.js` lines
1952-2006).  Completed with a result: adds the result and
`processing_time`.  Failed: adds `completed`, `failed`, the error,
`processing_time` and a fresh `generateFallbackReport()`.  Otherwise: in
progress. -/
def mainReportStatus (store : Store) (taskId : String) : StatusResponse :=
  match getTask store taskId with
  | none => notFoundResponse
  | some task =>
      if task.status = TaskStatus.completed ∧ task.result.isSome then
        { (baseStatusResponse task) with
          completed := some true,
          result := task.result,
          processing_time := some task.processing_time }
      else if task.status = TaskStatus.failed then
        { (baseStatusResponse task) with
          completed := some true,
          failed := some true,
          error := task.error,
          processing_time := some task.processing_time,
          fallback_report := some generateFallbackReport }
      else
        { (baseStatusResponse task) with
          completed := some false,
          message := some (if task.current_step = "" then "任务处理中..." else task.current_step) }

/-- `GET /api/report_status/:taskId` on the Vercel variant (`api/server.js`
lines 392-429).  Its failed branch (lines 419-422) adds only `completed`,
`failed` and the error — no `processing_time`, no `fallback_report`. -/
def vercelReportStatus (store : Store) (taskId : String) : StatusResponse :=
  match getTask store taskId with
  | none => notFoundResponse
  | some task =>
      if task.status = TaskStatus.completed ∧ task.result.isSome then
        { (baseStatusResponse task) with
          completed := some true,
          result := task.result,
          processing_time := some task.processing_time }
      else if task.status = TaskStatus.failed then
        { (baseStatusResponse task) with
          completed := some true,
          failed := some true,
          error := task.error }
      else
        { (baseStatusResponse task) with
          completed := some false,
          message := some (if task.current_step = "" then "任务处理中..." else task.current_step) }

/-! ## The client poller (`standalone_image_test_server.js` lines 1431-1521) -/

/-- What one poll observes: a network failure (fetch rejection or a
non-`ok` HTTP status, both thrown at lines 1448-1452), or a parsed status
body projected to the fields the loop reads. -/
inductive PollReply where
  | netError (msg : String)
  | body (completed failed : Bool) (error : Option String) (result : Option String)
deriving DecidableEq, Repr

/-- How `pollTaskStatus` ends: return of `statusResult.result`, a thrown
error, or the timeout throw after the loop. -/
inductive PollResult where
  | success (result : Option String)
  | thrown (e : String)
  | timeout
deriving DecidableEq, Repr

/-- The poll loop from index `i` with `fuel` iterations left
(`fuel = maxPolls - i`, so `fuel = rem + 1` with `rem = 0` exactly when
`i === maxPolls - 1`).  Faithful to the source: the
`throw new Error(statusResult.error || '分析任务失败')` at line 1476 sits
inside the `try`, so it is caught by the same iteration's `catch`
(line 1496), which rethrows only on the last index and otherwise waits 2 s
and retries.  Returns the outcome and the number of polls performed. -/
def pollFrom (oracle : Nat → PollReply) : Nat → Nat → PollResult × Nat
  | _, 0 => (PollResult.timeout, 0)
  | i, rem + 1 =>
      match oracle i with
      | .netError m =>
          if rem = 0 then (PollResult.thrown m, 1)
          else
            let r := pollFrom oracle (i + 1) rem
            (r.1, r.2 + 1)
      | .body completed failed e res =>
          if completed then
            if failed then
              if rem = 0 then (PollResult.thrown (e.getD "分析任务失败"), 1)
              else
                let r := pollFrom oracle (i + 1) rem
                (r.1, r.2 + 1)
            else (PollResult.success res, 1)
          else
            let r := pollFrom oracle (i + 1) rem
            (r.1, r.2 + 1)

/-- `maxPolls = 60` (line 1432). -/
def maxPolls : Nat := 60

/-- `pollTaskStatus`: run the loop from index 0; falling out of the loop
throws the timeout error (line 1520). -/
def pollTaskStatus (oracle : Nat → PollReply) : PollResult × Nat :=
  pollFrom oracle 0 maxPolls

/-! ## Shape of the main pipeline's mutation sequence

Every run of `processAnalysisTask` performs a block of `processing`
progress updates (progress non-decreasing, at most 90) followed by exactly
one terminal write.  The `Shaped` predicate captures this and the claim
proofs proceed by induction over it. -/

/-- `Shaped lo ops`: `ops` is a block of `processing` updates whose
progress values climb from at least `lo` and stay at most 90, closed by a
single terminal `setResult` or `setError`. -/
inductive Shaped : Nat → List StoreOp → Prop where
  | result (lo : Nat) (r : ResultPayload) : Shaped lo [StoreOp.setResult r]
  | err (lo : Nat) (e : String) : Shaped lo [StoreOp.setError e]
  | step (lo p : Nat) (s : String) (rest : List StoreOp) (h1 : lo ≤ p) (h2 : p ≤ 90)
      (h : Shaped p rest) : Shaped lo (StoreOp.update TaskStatus.processing s p :: rest)

/-- `UpChain lo hi us`: a block of `processing` updates only, progress
climbing from at least `lo` and ending at `hi`, each at most 90. -/
inductive UpChain : Nat → Nat → List StoreOp → Prop where
  | nil (lo hi : Nat) (h : lo ≤ hi) : UpChain lo hi []
  | cons (lo p hi : Nat) (s : String) (rest : List StoreOp) (h1 : lo ≤ p) (h2 : p ≤ 90)
      (h : UpChain p hi rest) : UpChain lo hi (StoreOp.update TaskStatus.processing s p :: rest)

lemma shaped_weaken {lo hi : Nat} {ops : List StoreOp} (h : Shaped hi ops)
    (hle : lo ≤ hi) : Shaped lo ops := by
  cases h with
  | result => exact Shaped.result _ _
  | err => exact Shaped.err _ _
  | step hi2 p s rest h1 h2 h3 => exact Shaped.step _ _ _ _ (le_trans hle h1) h2 h3

lemma upChain_weaken {lo hi : Nat} {us : List StoreOp} (h : UpChain lo hi us)
    {lo' : Nat} (hle : lo' ≤ lo) : UpChain lo' hi us := by
  cases h with
  | nil lo hi h0 => exact UpChain.nil _ _ (le_trans hle h0)
  | cons lo p hi s rest h1 h2 h => exact UpChain.cons _ _ _ _ _ (le_trans hle h1) h2 h

lemma UpChain.to_shaped {lo hi : Nat} {us more : List StoreOp} (h : UpChain lo hi us)
    (hr : Shaped hi more) : Shaped lo (us ++ more) := by
  induction h with
  | nil lo hi h0 => simpa using shaped_weaken hr h0
  | cons lo p hi s rest h1 h2 h ih => exact Shaped.step _ _ _ _ h1 h2 (ih hr)

lemma jsRound20_le (i n : Nat) (h : i ≤ n) : jsRound20 i n ≤ 20 := by
  unfold jsRound20
  rcases Nat.eq_zero_or_pos n with h0 | h0
  · subst h0; simp
  · have h2 : 0 < 2 * n := by omega
    have hlt : 40 * i + n < 21 * (2 * n) := by omega
    exact Nat.le_of_lt_succ ((Nat.div_lt_iff_lt_mul h2).mpr hlt)

lemma jsRound20_mono (n : Nat) {i j : Nat} (h : i ≤ j) : jsRound20 i n ≤ jsRound20 j n :=
  Nat.div_le_div_right (by omega)

lemma imgProgress_le (n i : Nat) (h : i ≤ n) : imgProgress n i ≤ 50 := by
  have := jsRound20_le i n h
  unfold imgProgress
  omega

lemma imgProgress_mono (n : Nat) {i j : Nat} (h : i ≤ j) :
    imgProgress n i ≤ imgProgress n j := by
  have := jsRound20_mono n h
  unfold imgProgress
  omega

lemma imgProgress_zero (n : Nat) (h : 0 < n) : imgProgress n 0 = 30 := by
  unfold imgProgress jsRound20
  have : n / (2 * n) = 0 := Nat.div_eq_of_lt (by omega)
  simpa using this

/-- The store operations of the image loop form a climbing update chain
bounded by 50. -/
lemma imageStage_upchain (env : Env) (n : Nat) :
    ∀ (fs : List UploadedFile) (i : Nat), i + fs.length ≤ n →
      ∃ hi, UpChain (imgProgress n i) hi (imageStage env n i fs).1 ∧ hi ≤ 50 := by
  intro fs
  induction fs with
  | nil =>
      intro i hle
      exact ⟨imgProgress n i, UpChain.nil _ _ (le_refl _), imgProgress_le n i (by simpa using hle)⟩
  | cons f fs ih =>
      intro i hle
      obtain ⟨hi, hch, hle50⟩ := ih (i + 1) (by simp at hle; omega)
      refine ⟨hi, ?_, hle50⟩
      show UpChain _ hi (imgOp n i :: (imageStage env n (i + 1) fs).1)
      have hmono : imgProgress n i ≤ imgProgress n (i + 1) := imgProgress_mono n (by omega)
      have hb : imgProgress n i ≤ 90 :=
        le_trans (imgProgress_le n i (by simp at hle; omega)) (by omega)
      exact UpChain.cons _ _ _ _ _ (le_refl _) hb (upChain_weaken hch hmono)

/-- The fixed tail of stage 3 onward (progress 55, 58, 60, 70, 80, 90,
then `setTaskResult`) is shaped from any starting progress at most 55. -/
lemma tail_shaped (lo : Nat) (h : lo ≤ 55) (r : ResultPayload) :
    Shaped lo
      [StoreOp.update TaskStatus.processing "AI查询优化中" 55,
       StoreOp.update TaskStatus.processing "AI查询优化完成" 58,
       StoreOp.update TaskStatus.processing "RAG知识库检索中" 60,
       StoreOp.update TaskStatus.processing "RAG知识检索完成" 70,
       StoreOp.update TaskStatus.processing "最终分析生成中" 80,
       StoreOp.update TaskStatus.processing "构建最终响应" 90,
       StoreOp.setResult r] := by
  refine Shaped.step _ _ _ _ h (by omega) ?_
  refine Shaped.step _ _ _ _ (by omega) (by omega) ?_
  refine Shaped.step _ _ _ _ (by omega) (by omega) ?_
  refine Shaped.step _ _ _ _ (by omega) (by omega) ?_
  refine Shaped.step _ _ _ _ (by omega) (by omega) ?_
  refine Shaped.step _ _ _ _ (by omega) (by omega) ?_
  exact Shaped.result _ _

/-- Every run of the main pipeline produces a shaped mutation sequence. -/
lemma processAnalysisTask_shaped (env : Env) (ui : UserInfo)
    (files : List UploadedFile) : Shaped 0 (processAnalysisTask env ui files) := by
  unfold processAnalysisTask
  by_cases hb : jsTrim ui.nickname = ""
  · simp only [hb, if_pos rfl]
    exact Shaped.step _ _ _ _ (by omega) (by omega) (Shaped.err _ _)
  · simp only [if_neg hb]
    refine Shaped.step _ _ _ _ (by omega) (by omega) ?_
    refine Shaped.step _ _ _ _ (by omega) (by omega) ?_
    unfold imageStageOps
    simp only []
    by_cases hn : 0 < (files.filter isValidImage).length
    · simp only [if_pos hn, List.cons_append]
      refine Shaped.step _ _ _ _ (by omega) (by omega) ?_
      obtain ⟨hi, hch, hle50⟩ :=
        imageStage_upchain env (files.filter isValidImage).length
          (files.filter isValidImage) 0 (by omega)
      rw [imgProgress_zero _ hn] at hch
      exact hch.to_shaped (tail_shaped hi (by omega) _)
    · simp only [if_neg hn, List.cons_append, List.nil_append]
      refine Shaped.step _ _ _ _ (by omega) (by omega) ?_
      exact tail_shaped 50 (by omega) _

/-! ## Generic facts about state sequences of shaped traces -/

lemma statesList_head (tm : Nat → Nat) (k : Nat) (t : Task) (ops : List StoreOp) :
    (statesList tm k t ops).head? = some t := by
  cases ops <;> rfl

lemma statesList_ne_nil (tm : Nat → Nat) (k : Nat) (t : Task) (ops : List StoreOp) :
    statesList tm k t ops ≠ [] := by
  cases ops <;> simp [statesList]

/-- Progress facts along a shaped trace: the observed progress sequence is
non-decreasing, bounded by 100, and hits 100 exactly at `completed`. -/
lemma shaped_states_progress {lo : Nat} {ops : List StoreOp} (h : Shaped lo ops) :
    ∀ (tm : Nat → Nat) (k : Nat) (t : Task), t.progress ≤ lo → t.progress ≤ 90 →
      t.status ≠ TaskStatus.completed →
      List.Chain' (fun a b => a.progress ≤ b.progress) (statesList tm k t ops) ∧
      ∀ s ∈ statesList tm k t ops,
        s.progress ≤ 100 ∧ (s.status = TaskStatus.completed ↔ s.progress = 100) := by
  induction h with
  | result lo r =>
      intro tm k t hlo h90 hnc
      constructor
      · simp [statesList, applyOp]
        omega
      · intro s hs
        simp [statesList, applyOp] at hs
        rcases hs with hs | hs <;> subst hs
        · exact ⟨by omega, by constructor <;> intro hx <;> [exact absurd hx hnc; omega]⟩
        · simp
  | err lo e =>
      intro tm k t hlo h90 hnc
      constructor
      · simp [statesList, applyOp]
      · intro s hs
        simp [statesList, applyOp] at hs
        rcases hs with hs | hs <;> subst hs
        · exact ⟨by omega, by constructor <;> intro hx <;> [exact absurd hx hnc; omega]⟩
        · refine ⟨by simpa using by omega, ?_⟩
          constructor <;> intro hx <;> simp at hx <;> omega
  | step lo p s rest h1 h2 h3 ih =>
      intro tm k t hlo h90 hnc
      have ht' := ih tm (k + 1)
        (applyOp (tm k) t (StoreOp.update TaskStatus.processing s p))
        (by simp [applyOp]) (by simp [applyOp]; omega) (by simp [applyOp])
      constructor
      · show List.Chain' _ (t :: statesList tm (k + 1) _ rest)
        rw [List.chain'_cons']
        refine ⟨?_, ht'.1⟩
        intro y hy
        rw [statesList_head] at hy
        simp at hy
        subst hy
        simp [applyOp]
        omega
      · intro x hx
        simp only [statesList, List.mem_cons] at hx
        rcases hx with hx | hx
        · subst hx
          exact ⟨by omega, by constructor <;> intro hx2 <;> [exact absurd hx2 hnc; omega]⟩
        · exact ht'.2 x hx

/-- Along a shaped trace, the state written just before any terminal state
is a `processing` state: no `pending → terminal` transition. -/
lemma shaped_states_no_pending_to_terminal {lo : Nat} {ops : List StoreOp}
    (h : Shaped lo ops) :
    ∀ (tm : Nat → Nat) (k : Nat) (t : Task),
      (t.status = TaskStatus.processing ∨
        ∃ s p rest, ops = StoreOp.update TaskStatus.processing s p :: rest) →
      List.Chain' (fun a b => b.status.isTerminal = true → a.status = TaskStatus.processing)
        (statesList tm k t ops) := by
  induction h with
  | result lo r =>
      intro tm k t hstart
      have hp : t.status = TaskStatus.processing := by
        rcases hstart with hp | ⟨s, p, rest, habs⟩
        · exact hp
        · cases habs
      simp [statesList, applyOp, hp]
  | err lo e =>
      intro tm k t hstart
      have hp : t.status = TaskStatus.processing := by
        rcases hstart with hp | ⟨s, p, rest, habs⟩
        · exact hp
        · cases habs
      simp [statesList, applyOp, hp]
  | step lo p s rest h1 h2 h3 ih =>
      intro tm k t _
      show List.Chain' _ (t :: statesList tm (k + 1) _ rest)
      rw [List.chain'_cons']
      constructor
      · intro y hy
        rw [statesList_head] at hy
        simp at hy
        subst hy
        intro habs
        simp [applyOp, TaskStatus.isTerminal] at habs
      · exact ih tm (k + 1) _ (Or.inl (by simp [applyOp]))

/-- Along a shaped trace started from a record with `result = error = null`
and a non-terminal status, the `result`/`error` exclusivity invariant holds
in every observable state. -/
lemma shaped_states_excl {lo : Nat} {ops : List StoreOp} (h : Shaped lo ops) :
    ∀ (tm : Nat → Nat) (k : Nat) (t : Task),
      t.result = none → t.error = none → t.status.isTerminal = false →
      ∀ s ∈ statesList tm k t ops,
        ((s.status = TaskStatus.pending ∨ s.status = TaskStatus.processing) →
          s.result = none ∧ s.error = none) ∧
        (s.status.isTerminal = true →
          (s.result.isSome = true ∧ s.error = none) ∨
            (s.result = none ∧ s.error.isSome = true)) := by
  induction h with
  | result lo r =>
      intro tm k t hr he hnt x hx
      simp [statesList, applyOp] at hx
      rcases hx with hx | hx <;> subst hx
      · exact ⟨fun _ => ⟨hr, he⟩, fun habs => by rw [habs] at hnt; cases hnt⟩
      · refine ⟨?_, fun _ => Or.inl ⟨by simp, by simpa using he⟩⟩
        rintro (habs | habs) <;> simp at habs
  | err lo e =>
      intro tm k t hr he hnt x hx
      simp [statesList, applyOp] at hx
      rcases hx with hx | hx <;> subst hx
      · exact ⟨fun _ => ⟨hr, he⟩, fun habs => by rw [habs] at hnt; cases hnt⟩
      · refine ⟨?_, fun _ => Or.inr ⟨by simpa using hr, by simp⟩⟩
        rintro (habs | habs) <;> simp at habs
  | step lo p s rest h1 h2 h3 ih =>
      intro tm k t hr he hnt x hx
      simp only [statesList, List.mem_cons] at hx
      rcases hx with hx | hx
      · subst hx
        exact ⟨fun _ => ⟨hr, he⟩, fun habs => by rw [habs] at hnt; cases hnt⟩
      · exact ih tm (k + 1) _ (by simpa [applyOp] using hr)
          (by simpa [applyOp] using he) (by simp [applyOp, TaskStatus.isTerminal]) x hx

/-- Along a shaped trace, a terminal state is never followed by a state
with a different status (in fact only the final state is terminal). -/
lemma shaped_states_absorbing {lo : Nat} {ops : List StoreOp} (h : Shaped lo ops) :
    ∀ (tm : Nat → Nat) (k : Nat) (t : Task), t.status.isTerminal = false →
      List.Pairwise (fun a b => a.status.isTerminal = true → b.status = a.status)
        (statesList tm k t ops) := by
  induction h with
  | result lo r =>
      intro tm k t hnt
      simp [statesList, applyOp]
      intro habs
      rw [habs] at hnt
      cases hnt
  | err lo e =>
      intro tm k t hnt
      simp [statesList, applyOp]
      intro habs
      rw [habs] at hnt
      cases hnt
  | step lo p s rest h1 h2 h3 ih =>
      intro tm k t hnt
      show List.Pairwise _ (t :: statesList tm (k + 1) _ rest)
      rw [List.pairwise_cons]
      constructor
      · intro b _ habs
        rw [habs] at hnt
        cases hnt
      · exact ih tm (k + 1) _ (by simp [applyOp, TaskStatus.isTerminal])

/-- Only the final state of a shaped trace can be terminal. -/
lemma shaped_states_dropLast {lo : Nat} {ops : List StoreOp} (h : Shaped lo ops) :
    ∀ (tm : Nat → Nat) (k : Nat) (t : Task), t.status.isTerminal = false →
      ∀ s ∈ (statesList tm k t ops).dropLast, s.status.isTerminal = false := by
  induction h with
  | result lo r =>
      intro tm k t hnt x hx
      simp [statesList, applyOp] at hx
      subst hx
      exact hnt
  | err lo e =>
      intro tm k t hnt x hx
      simp [statesList, applyOp] at hx
      subst hx
      exact hnt
  | step lo p s rest h1 h2 h3 ih =>
      intro tm k t hnt x hx
      rw [show statesList tm k t (StoreOp.update TaskStatus.processing s p :: rest)
            = t :: statesList tm (k + 1) (applyOp (tm k) t _) rest from rfl] at hx
      rw [List.dropLast_cons_of_ne_nil (statesList_ne_nil _ _ _ _)] at hx
      rcases List.mem_cons.mp hx with hx | hx
      · subst hx
        exact hnt
      · exact ih tm (k + 1) _ (by simp [applyOp, TaskStatus.isTerminal]) x hx

/-- If a shaped trace ends `failed`, the final progress is the last value
written by an update (at most 90) or the starting progress. -/
lemma shaped_final_failed_progress {lo : Nat} {ops : List StoreOp} (h : Shaped lo ops) :
    ∀ (tm : Nat → Nat) (k : Nat) (t : Task), t.progress ≤ 90 →
      (runTrace tm k t ops).status = TaskStatus.failed →
      (runTrace tm k t ops).progress ≤ 90 := by
  induction h with
  | result lo r =>
      intro tm k t h90 habs
      simp [runTrace, applyOp] at habs
  | err lo e =>
      intro tm k t h90 _
      simpa [runTrace, applyOp] using h90
  | step lo p s rest h1 h2 h3 ih =>
      intro tm k t h90 hf
      exact ih tm (k + 1) _ (by simp [applyOp]; omega) hf

/-- Running a trace that ends with `setTaskResult r` leaves a `completed`
record holding `r` with progress 100. -/
lemma runTrace_append_result :
    ∀ (us : List StoreOp) (tm : Nat → Nat) (k : Nat) (t : Task) (r : ResultPayload),
      (runTrace tm k t (us ++ [StoreOp.setResult r])).status = TaskStatus.completed ∧
      (runTrace tm k t (us ++ [StoreOp.setResult r])).result = some r ∧
      (runTrace tm k t (us ++ [StoreOp.setResult r])).progress = 100 := by
  intro us
  induction us with
  | nil => intro tm k t r; simp [runTrace, applyOp]
  | cons op ops ih => intro tm k t r; simpa [runTrace] using ih tm (k + 1) (applyOp (tm k) t op) r

/-! ## Collaborator-failure predicates (for C1) -/

/-- A classification call that did not return a usable category. -/
def ClassifyOutcome.isFailure : ClassifyOutcome → Bool
  | .ok _ => false
  | .thrown _ => true
  | .notSuccess _ => true

/-- A RAG subprocess run that produced no data payload. -/
def RagProcOutcome.isFailure : RagProcOutcome → Bool
  | .resolvedData _ => false
  | .resolvedErrorWithFallback _ => false
  | .resolvedErrorNoFallback => true
  | .parseFailure => true
  | .nonzeroExit => true
  | .spawnError => true
  | .timeout => true

/-- Every external collaborator call made by the pipeline fails or times
out: classification of every image, query expansion, retrieval, and final
synthesis. -/
def allCollaboratorsFail (env : Env) : Prop :=
  (∀ i, (env.classify i).isFailure = true) ∧
  (∃ m, env.enhance = Except.error m) ∧
  env.ragOutcome.isFailure = true ∧
  (∃ m, env.finalReport = Except.error m)

lemma callRAGSystem_isFailure {o : RagProcOutcome} (h : o.isFailure = true) :
    callRAGSystem o = generateFallbackReport := by
  cases o <;> simp_all [RagProcOutcome.isFailure, callRAGSystem]

lemma imageStage_analyses_fail (env : Env)
    (hc : ∀ i, (env.classify i).isFailure = true) (n : Nat) :
    ∀ (fs : List UploadedFile) (i : Nat), ∀ a ∈ (imageStage env n i fs).2,
      a.success = false := by
  intro fs
  induction fs with
  | nil =>
      intro i a ha
      simp [imageStage] at ha
  | cons f fs ih =>
      intro i a ha
      simp only [imageStage, List.mem_cons] at ha
      rcases ha with ha | ha
      · subst ha
        have hi := hc i
        cases hcl : env.classify i with
        | thrown m => simp [analyzeOneImage, hcl, errorAnalysis]
        | notSuccess e => simp [analyzeOneImage, hcl, errorAnalysis]
        | ok c =>
            rw [hcl] at hi
            simp [ClassifyOutcome.isFailure] at hi
      · exact ih (i + 1) a ha

/-- With a non-blank nickname the main pipeline's run ends `completed`,
storing the stage-6 response. -/
lemma mainFinal_eq_completed (env : Env) (ui : UserInfo) (files : List UploadedFile)
    (tm : Nat → Nat) (id : String) (now : Nat) (hne : jsTrim ui.nickname ≠ "") :
    (mainFinal env ui files tm id now).status = TaskStatus.completed ∧
    (mainFinal env ui files tm id now).result =
      some (ResultPayload.main (mainResponse env ui files)) ∧
    (mainFinal env ui files tm id now).progress = 100 := by
  unfold mainFinal
  have htr : processAnalysisTask env ui files =
      (StoreOp.update TaskStatus.processing "开始数据验证" 10 ::
       StoreOp.update TaskStatus.processing "输入数据验证完成" 20 ::
       imageStageOps env files ++
       [StoreOp.update TaskStatus.processing "AI查询优化中" 55,
        StoreOp.update TaskStatus.processing "AI查询优化完成" 58,
        StoreOp.update TaskStatus.processing "RAG知识库检索中" 60,
        StoreOp.update TaskStatus.processing "RAG知识检索完成" 70,
        StoreOp.update TaskStatus.processing "最终分析生成中" 80,
        StoreOp.update TaskStatus.processing "构建最终响应" 90]) ++
      [StoreOp.setResult (ResultPayload.main (mainResponse env ui files))] := by
    simp [processAnalysisTask, if_neg hne]
  rw [htr]
  exact runTrace_append_result _ tm 0 _ _

/-- With a blank nickname the run ends `failed` with the validation
message, progress still 10. -/
lemma mainFinal_eq_failed (env : Env) (ui : UserInfo) (files : List UploadedFile)
    (tm : Nat → Nat) (id : String) (now : Nat) (hb : jsTrim ui.nickname = "") :
    (mainFinal env ui files tm id now).status = TaskStatus.failed ∧
    (mainFinal env ui files tm id now).error = some validationErrorMsg ∧
    (mainFinal env ui files tm id now).progress = 10 := by
  unfold mainFinal processAnalysisTask
  rw [if_pos hb]
  simp [runTrace, applyOp]

/-! ## Concrete sample inputs for witnesses and counterexamples -/

/-- A user record with a non-blank nickname. -/
def sampleUI : UserInfo :=
  { nickname := "Alice", profession := "教师", age := "28", bioOrChatHistory := "" }

/-- An environment in which every external collaborator call fails or
times out. -/
def sampleEnvFail : Env :=
  { classify := fun _ => ClassifyOutcome.thrown "fetch failed"
    analyzeChat := fun _ => Except.error "fetch failed"
    analyzePhoto := fun _ => Except.error "fetch failed"
    analyzeGeneric := fun _ => Except.error "fetch failed"
    enhance := Except.error "fetch failed"
    ragSystemReady := true
    ragOutcome := RagProcOutcome.timeout
    finalReport := Except.error "fetch failed" }

lemma sampleEnvFail_allFail : allCollaboratorsFail sampleEnvFail :=
  ⟨fun _ => rfl, ⟨"fetch failed", rfl⟩, rfl, ⟨"fetch failed", rfl⟩⟩

/-! ## Claim C1 -/

/-- **C1.**  For every submitted task, whatever the collaborator outcomes,
a non-blank nickname leads to `completed` with the stage-6 response stored;
when moreover every collaborator call fails, that response is built from
fallbacks (fallback retrieval payload, fallback final report, only
per-image error markers).  The run ends `failed` exactly when the stage-1
validation throws (blank nickname), converted by the top-level catch into
`setTaskError` with the validation message — the only failure path of the
stage sequence. -/
theorem mainPipeline_graceful_degradation
    (env : Env) (ui : UserInfo) (files : List UploadedFile)
    (tm : Nat → Nat) (id : String) (now : Nat) :
    (jsTrim ui.nickname ≠ "" →
      (mainFinal env ui files tm id now).status = TaskStatus.completed ∧
      (mainFinal env ui files tm id now).result =
        some (ResultPayload.main (mainResponse env ui files)) ∧
      (allCollaboratorsFail env →
        (mainResponse env ui files).rag_knowledge = generateFallbackReport ∧
        (mainResponse env ui files).final_report = generateFallbackReport ∧
        ∀ a ∈ (mainResponse env ui files).image_analyses, a.success = false)) ∧
    ((mainFinal env ui files tm id now).status = TaskStatus.failed ↔
      jsTrim ui.nickname = "") := by
  constructor
  · intro hne
    obtain ⟨h1, h2, _⟩ := mainFinal_eq_completed env ui files tm id now hne
    refine ⟨h1, h2, ?_⟩
    rintro ⟨hc, ⟨m1, he⟩, hr, ⟨m2, hf⟩⟩
    refine ⟨?_, ?_, ?_⟩
    · simp [mainResponse, callRAGSystem_isFailure hr, ite_self]
    · simp [mainResponse, hf]
    · intro a ha
      simp only [mainResponse] at ha
      exact imageStage_analyses_fail env hc _ _ 0 a ha
  · constructor
    · intro hfl
      by_cases hb : jsTrim ui.nickname = ""
      · exact hb
      · have := (mainFinal_eq_completed env ui files tm id now hb).1
        rw [hfl] at this
        cases this
    · intro hb
      exact (mainFinal_eq_failed env ui files tm id now hb).1

/-- Witness for C1 at a concrete input: nickname `"Alice"`, no files, every
collaborator failing. -/
theorem mainPipeline_graceful_degradation_witness :
    (mainFinal sampleEnvFail sampleUI [] (fun _ => 0) "t1" 0).status =
      TaskStatus.completed ∧
    (mainResponse sampleEnvFail sampleUI []).rag_knowledge = generateFallbackReport ∧
    (mainResponse sampleEnvFail sampleUI []).final_report = generateFallbackReport := by
  have h := mainPipeline_graceful_degradation sampleEnvFail sampleUI []
    (fun _ => 0) "t1" 0
  obtain ⟨h1, h2, h3⟩ := h.1 (by decide)
  obtain ⟨hr, hf, _⟩ := h3 sampleEnvFail_allFail
  exact ⟨h1, hr, hf⟩

/-! ## Claim C2 -/

/-- **C2.**  `progress` is 0 at creation, at most 100 (it is a `Nat`, so
at least 0) in every state the pipeline writes, non-decreasing along the
whole sequence of task-store updates, and equals 100 exactly in the states
whose status is `completed`. -/
theorem mainPipeline_progress_invariant
    (env : Env) (ui : UserInfo) (files : List UploadedFile)
    (tm : Nat → Nat) (id : String) (now : Nat) :
    (createTask id now (InputData.main ui files.length now)).progress = 0 ∧
    List.Chain' (fun a b => a.progress ≤ b.progress) (mainStates env ui files tm id now) ∧
    ∀ s ∈ mainStates env ui files tm id now,
      s.progress ≤ 100 ∧ (s.status = TaskStatus.completed ↔ s.progress = 100) := by
  have h := shaped_states_progress (processAnalysisTask_shaped env ui files) tm 0
    (createTask id now (InputData.main ui files.length now))
    (by simp [createTask]) (by simp [createTask]) (by simp [createTask])
  exact ⟨rfl, h.1, h.2⟩

/-- Witness for C2: the terminal state of a concrete all-fallback run has
progress 100 and status `completed`. -/
theorem mainPipeline_progress_invariant_witness :
    (mainFinal sampleEnvFail sampleUI [] (fun _ => 0) "t1" 0).progress ≤ 100 ∧
    ((mainFinal sampleEnvFail sampleUI [] (fun _ => 0) "t1" 0).status =
        TaskStatus.completed ↔
      (mainFinal sampleEnvFail sampleUI [] (fun _ => 0) "t1" 0).progress = 100) :=
  (mainPipeline_progress_invariant sampleEnvFail sampleUI [] (fun _ => 0) "t1" 0).2.2
    _ (by decide)

/-! ## Claim C4 (amended: main pipeline only) -/

/-- **C4 (amended).**  In the main pipeline the very first task-store
mutation sets `status = processing` (at progress 10, before the stage-1
validation), and along the observable state sequence every terminal state
is immediately preceded by a `processing` state — a task never steps from
`pending` straight to a terminal state.  (The Vercel variant violates the
original claim; see the counterexample.) -/
theorem mainPipeline_processing_before_terminal
    (env : Env) (ui : UserInfo) (files : List UploadedFile)
    (tm : Nat → Nat) (id : String) (now : Nat) :
    (processAnalysisTask env ui files).head? =
      some (StoreOp.update TaskStatus.processing "开始数据验证" 10) ∧
    List.Chain' (fun a b => b.status.isTerminal = true → a.status = TaskStatus.processing)
      (mainStates env ui files tm id now) := by
  refine ⟨rfl, ?_⟩
  exact shaped_states_no_pending_to_terminal (processAnalysisTask_shaped env ui files)
    tm 0 _ (Or.inr ⟨"开始数据验证", 10, _, rfl⟩)

/-- Witness for C4 at a concrete input: the pipeline's first mutation. -/
theorem mainPipeline_processing_before_terminal_witness :
    (processAnalysisTask sampleEnvFail sampleUI []).head? =
      some (StoreOp.update TaskStatus.processing "开始数据验证" 10) :=
  (mainPipeline_processing_before_terminal sampleEnvFail sampleUI []
    (fun _ => 0) "t1" 0).1

/-- Counterexample to C4 as stated: in the Vercel variant
(`processAnalysisVercel` performs no `updateTaskStatus` call) a task's
observable statuses go directly `pending → completed`. -/
theorem vercelPipeline_pending_to_terminal_cex :
    (vercelStates (VercelRun.ok ⟨false, "ans"⟩ (Payload.external "report"))
        sampleUI (fun _ => 0) "t1" 0).map Task.status =
      [TaskStatus.pending, TaskStatus.completed] := rfl

/-! ## Claim C7 -/

/-- **C7.**  In every state the main lifecycle reaches, `result` and
`error` are both null while the status is `pending` or `processing`, and
exactly one of them is non-null once the status is terminal. -/
theorem mainStates_result_error_exclusivity
    (env : Env) (ui : UserInfo) (files : List UploadedFile)
    (tm : Nat → Nat) (id : String) (now : Nat) :
    ∀ s ∈ mainStates env ui files tm id now,
      ((s.status = TaskStatus.pending ∨ s.status = TaskStatus.processing) →
        s.result = none ∧ s.error = none) ∧
      (s.status.isTerminal = true →
        (s.result.isSome = true ∧ s.error = none) ∨
          (s.result = none ∧ s.error.isSome = true)) :=
  shaped_states_excl (processAnalysisTask_shaped env ui files) tm 0 _ rfl rfl rfl

/-- Witness for C7: the initial record of a concrete run is `pending` with
both fields null. -/
theorem mainStates_result_error_exclusivity_witness :
    (createTask "t1" 0 (InputData.main sampleUI 0 0)).result = none ∧
    (createTask "t1" 0 (InputData.main sampleUI 0 0)).error = none :=
  (mainStates_result_error_exclusivity sampleEnvFail sampleUI [] (fun _ => 0) "t1" 0
    _ (by decide)).1 (Or.inl rfl)

/-! ## Claim C8 -/

/-- **C8.**  Terminal states are absorbing: along the observable state
sequence, once a state is terminal every later state has the same status —
indeed only the final state of the pipeline's run is terminal, so no
further mutation is ever applied to a terminal task.  (The retention sweep
deletes records outright; it never rewrites a status.) -/
theorem mainStates_terminal_absorbing
    (env : Env) (ui : UserInfo) (files : List UploadedFile)
    (tm : Nat → Nat) (id : String) (now : Nat) :
    List.Pairwise (fun a b => a.status.isTerminal = true → b.status = a.status)
      (mainStates env ui files tm id now) ∧
    ∀ s ∈ (mainStates env ui files tm id now).dropLast, s.status.isTerminal = false :=
  ⟨shaped_states_absorbing (processAnalysisTask_shaped env ui files) tm 0 _ rfl,
   shaped_states_dropLast (processAnalysisTask_shaped env ui files) tm 0 _ rfl⟩

/-- Witness for C8: in a concrete run the initial (non-final) state is not
terminal. -/
theorem mainStates_terminal_absorbing_witness :
    (createTask "t1" 0 (InputData.main sampleUI 0 0)).status.isTerminal = false :=
  (mainStates_terminal_absorbing sampleEnvFail sampleUI [] (fun _ => 0) "t1" 0).2
    _ (by decide)

/-! ## Claim C3 (amended: main submission endpoint only) -/

/-- A request body whose nickname field is the empty string. -/
def sampleEmptyBody : ReqBody :=
  { nickname := some "", profession := none, age := none, bioOrChatHistory := none }

/-- Counterexample to C3 as stated: the Vercel submission endpoint
(`api/server.js` lines 312-346) performs no validation — an empty nickname
still creates a task and returns a success response. -/
theorem vercelSubmit_empty_nickname_cex :
    (vercelSubmit [] "t1" 0 sampleEmptyBody).1.success = true ∧
    (vercelSubmit [] "t1" 0 sampleEmptyBody).1.httpStatus = 200 ∧
    (vercelSubmit [] "t1" 0 sampleEmptyBody).2.length = 1 := by
  exact ⟨rfl, rfl, rfl⟩

/-- **C3 (amended).**  On the main server, a submission whose nickname is
empty or whitespace-only is rejected with HTTP 400, `success: false` and
the validation message, no task id is issued and the task store is left
unchanged. -/
theorem mainSubmit_empty_nickname_rejected
    (store : Store) (freshId : String) (now : Nat) (body : ReqBody)
    (filesCount : Nat) (h : jsTrim (mkUserInfo body).nickname = "") :
    (mainSubmit store freshId now body filesCount).1.httpStatus = 400 ∧
    (mainSubmit store freshId now body filesCount).1.success = false ∧
    (mainSubmit store freshId now body filesCount).1.error = some validationErrorMsg ∧
    (mainSubmit store freshId now body filesCount).1.task_id = none ∧
    (mainSubmit store freshId now body filesCount).2 = store := by
  simp [mainSubmit, h]

/-- Witness for C3 at the concrete empty-nickname body. -/
theorem mainSubmit_empty_nickname_rejected_witness :
    (mainSubmit [] "t1" 0 sampleEmptyBody 0).1.httpStatus = 400 ∧
    (mainSubmit [] "t1" 0 sampleEmptyBody 0).2 = [] := by
  have h := mainSubmit_empty_nickname_rejected [] "t1" 0 sampleEmptyBody 0 (by decide)
  exact ⟨h.1, h.2.2.2.2⟩

/-! ## Claim C5 (amended: main status endpoint only) -/

/-- A concrete `failed` task record, as left by `setTaskError` mid-run. -/
def sampleFailedTask : Task :=
  { id := "t1"
    status := TaskStatus.failed
    progress := 55
    current_step := "AI查询优化中"
    created_at := 0
    updated_at := 5000
    input_data := InputData.vercel sampleUI
    result := none
    error := some "boom"
    processing_time := 5000 }

/-- Counterexample to C5 as stated: the Vercel status endpoint's failed
branch (`api/server.js` lines 419-422) returns neither `processing_time`
nor `fallback_report`. -/
theorem vercelReportStatus_failed_missing_fields_cex :
    (vercelReportStatus [("t1", sampleFailedTask)] "t1").failed = some true ∧
    (vercelReportStatus [("t1", sampleFailedTask)] "t1").processing_time = none ∧
    (vercelReportStatus [("t1", sampleFailedTask)] "t1").fallback_report = none := by
  exact ⟨by decide, by decide, by decide⟩

/-- **C5 (amended).**  Querying the main server's status endpoint for a
`failed` task yields `completed: true`, `failed: true`, the task's error,
its `processing_time` and the generic `generateFallbackReport()` payload. -/
theorem mainReportStatus_failed_payload
    (store : Store) (taskId : String) (task : Task)
    (hfind : getTask store taskId = some task)
    (hfail : task.status = TaskStatus.failed) :
    (mainReportStatus store taskId).completed = some true ∧
    (mainReportStatus store taskId).failed = some true ∧
    (mainReportStatus store taskId).error = task.error ∧
    (mainReportStatus store taskId).processing_time = some task.processing_time ∧
    (mainReportStatus store taskId).fallback_report = some generateFallbackReport := by
  unfold mainReportStatus
  rw [hfind]
  dsimp only
  have hnc : ¬(task.status = TaskStatus.completed ∧ task.result.isSome = true) := by
    rintro ⟨hc, _⟩
    rw [hfail] at hc
    cases hc
  rw [if_neg hnc, if_pos hfail]
  exact ⟨rfl, rfl, rfl, rfl, rfl⟩

/-- Witness for C5 at a concrete failed task. -/
theorem mainReportStatus_failed_payload_witness :
    (mainReportStatus [("t1", sampleFailedTask)] "t1").failed = some true ∧
    (mainReportStatus [("t1", sampleFailedTask)] "t1").error = some "boom" ∧
    (mainReportStatus [("t1", sampleFailedTask)] "t1").fallback_report =
      some generateFallbackReport := by
  have h := mainReportStatus_failed_payload [("t1", sampleFailedTask)] "t1"
    sampleFailedTask (by decide) rfl
  exact ⟨h.2.1, h.2.2.1, h.2.2.2.2⟩

/-! ## Claim C6 (code bug: a failed poll does not stop the loop) -/

lemma pollFrom_count_le (oracle : Nat → PollReply) :
    ∀ (fuel i : Nat), (pollFrom oracle i fuel).2 ≤ fuel := by
  intro fuel
  induction fuel with
  | zero => intro i; simp [pollFrom]
  | succ rem ih =>
      intro i
      have hih := ih (i + 1)
      unfold pollFrom
      cases oracle i with
      | netError m =>
          by_cases h : rem = 0
          · simp [h]
          · simp only [if_neg h]
            omega
      | body c f e r =>
          cases c with
          | false =>
              simp only [Bool.false_eq_true, if_false]
              omega
          | true =>
              cases f with
              | false => simp
              | true =>
                  by_cases h : rem = 0
                  · simp [h]
                  · simp only [if_true, if_neg h]
                    omega

/-- **C6 (the poller evaluated at the failing input).**  The loop performs
at most 60 polls, and the first completed-and-not-failed poll returns the
result after exactly one poll.  But on a task whose status is `failed` the
`throw` of the task's error is swallowed by the loop's own `catch`
(`standalone_image_test_server.js` line 1476 sits inside the `try` whose
`catch` is at line 1496), so instead of stopping at the first failed poll
the loop retries until the entire 60-poll budget is exhausted and only
then rethrows the task's error. -/
theorem pollTaskStatus_failed_poll_not_immediate :
    (∀ oracle, (pollTaskStatus oracle).2 ≤ maxPolls) ∧
    pollTaskStatus (fun _ => PollReply.body true false none (some "done")) =
      (PollResult.success (some "done"), 1) ∧
    pollTaskStatus (fun _ => PollReply.body true true (some "分析失败") none) =
      (PollResult.thrown "分析失败", 60) := by
  exact ⟨fun oracle => pollFrom_count_le oracle maxPolls 0, by decide, by decide⟩

/-! ## Claim C9 -/

/-- **C9.**  After the retention sweep runs at time `now`, no record whose
`created_at` lies more than one hour (3600000 ms) in the past is returned
by `get`, whatever its status — the sweep deletes every over-age record,
in-flight ones included. -/
theorem cleanupOldTasks_expired_absent (now : Nat) (store : Store) (taskId : String) :
    ∀ t, getTask (cleanupOldTasks now store) taskId = some t →
      ¬ t.created_at < now - 3600000 := by
  induction store with
  | nil =>
      intro t h
      simp [getTask, cleanupOldTasks, List.lookup] at h
  | cons p rest ih =>
      obtain ⟨k, v⟩ := p
      intro t h
      by_cases hold : v.created_at < now - 3600000
      · refine ih t ?_
        simpa [cleanupOldTasks, hold] using h
      · rw [show cleanupOldTasks now ((k, v) :: rest)
              = (k, v) :: cleanupOldTasks now rest from by
            simp [cleanupOldTasks, hold]] at h
        simp only [getTask, List.lookup] at h
        cases hbe : (taskId == k) with
        | true =>
            rw [hbe] at h
            simp at h
            rw [← h]
            exact hold
        | false =>
            rw [hbe] at h
            exact ih t (by simpa [cleanupOldTasks, getTask] using h)

/-- Witness for C9: a record created within the window survives the sweep
and is indeed not over-age. -/
theorem cleanupOldTasks_expired_absent_witness :
    ¬ (createTask "t1" 1000000 (InputData.vercel sampleUI)).created_at <
        4000000 - 3600000 :=
  cleanupOldTasks_expired_absent 4000000
    [("t1", createTask "t1" 1000000 (InputData.vercel sampleUI))] "t1" _ (by decide)

/-! ## Claim C10 -/

/-- **C10.**  `setTaskError` changes only `error`, `status`,
`processing_time` and `updated_at`; `progress`, `current_step`, `result`,
`input_data`, `created_at` and `id` are untouched (it is exactly the effect
of the pipeline's `setError` mutation), and consequently a task the main
pipeline fails keeps the progress it had reached — strictly below 100. -/
theorem setTaskError_frame
    (now : Nat) (e : String) (t : Task) (env : Env) (ui : UserInfo)
    (files : List UploadedFile) (tm : Nat → Nat) (id : String) (now2 : Nat) :
    ((setTaskErrorTask now e t).progress = t.progress ∧
      (setTaskErrorTask now e t).current_step = t.current_step ∧
      (setTaskErrorTask now e t).result = t.result ∧
      (setTaskErrorTask now e t).input_data = t.input_data ∧
      (setTaskErrorTask now e t).created_at = t.created_at ∧
      (setTaskErrorTask now e t).id = t.id) ∧
    ((setTaskErrorTask now e t).status = TaskStatus.failed ∧
      (setTaskErrorTask now e t).error = some e ∧
      (setTaskErrorTask now e t).processing_time = now - t.created_at ∧
      (setTaskErrorTask now e t).updated_at = now) ∧
    applyOp now t (StoreOp.setError e) = setTaskErrorTask now e t ∧
    ((mainFinal env ui files tm id now2).status = TaskStatus.failed →
      (mainFinal env ui files tm id now2).progress < 100) := by
  refine ⟨⟨rfl, rfl, rfl, rfl, rfl, rfl⟩, ⟨rfl, rfl, rfl, rfl⟩, rfl, ?_⟩
  intro hf
  unfold mainFinal at hf ⊢
  have h := shaped_final_failed_progress (processAnalysisTask_shaped env ui files)
    tm 0 (createTask id now2 (InputData.main ui files.length now2))
    (by simp [createTask]) hf
  omega

/-- Witness for C10: a run failed by the blank-nickname validation keeps
progress 10 < 100, and the frame equalities hold on a concrete record. -/
theorem setTaskError_frame_witness :
    (setTaskErrorTask 9000 "boom" sampleFailedTask).progress =
      sampleFailedTask.progress ∧
    (mainFinal sampleEnvFail { sampleUI with nickname := " " } []
        (fun _ => 0) "t1" 0).progress < 100 := by
  obtain ⟨hframe, hmut, htie, himp⟩ := setTaskError_frame 9000 "boom" sampleFailedTask
    sampleEnvFail { sampleUI with nickname := " " } [] (fun _ => 0) "t1" 0
  exact ⟨hframe.1, himp (by decide)⟩

end Zhaoyaojing
